import Mathlib

set_option maxRecDepth 200000

/-!
Verification of the review-orchestration core of the AI Code Review Assistant
repository (files app/models.py, app/rules.py, app/reviewer.py, app/prompts.py).

The Python code is shallowly embedded: Pydantic models become Lean structures,
the deterministic rule engine and the LLM-output parsing pipeline become
executable Lean functions over strings (represented as lists of characters for
the scanning primitives).  Floating-point confidences are modelled as exact
rationals (all confidences appearing in the code are decimal constants).
Wall-clock time (the review_time_seconds field) is not modelled.  The standard
library json.loads of Python is an external collaborator and is modelled as an
abstract decoding function into a JSON value type; lax string-to-
number coercions of Pydantic are not modelled, only the documented schema checks.
-/

/-- Severity of an issue: the Pydantic Literal "low" | "medium" | "high"
from app/models.py. -/
inductive Severity where
  | low
  | medium
  | high
deriving DecidableEq

/-- Suggested action: the Pydantic Literal "review" | "ignore" from
app/models.py. -/
inductive ReviewAction where
  | review
  | ignore
deriving DecidableEq

/-- One review finding, mirroring the Pydantic model Issue in app/models.py.
The Python field name is `type`; confidence is constrained to [0,1] by
Pydantic and is modelled as an exact rational. -/
structure Issue where
  type : String
  severity : Severity
  message : String
  confidence : Rat
  action : ReviewAction
  line_number : Option Int
  file_path : Option String
deriving DecidableEq

/-- Pull-request input, mirroring the Pydantic model PRDiff in app/models.py. -/
structure PRDiff where
  pr_number : Int
  title : String
  description : String
  author : String
  files_changed : List String
  diff : String
  commit_message : String

/-- Review summary, mirroring ReviewSummary in app/models.py.  The
review_time_seconds field (wall-clock time) is omitted from the model. -/
structure ReviewSummary where
  total_issues : Nat
  high_severity : Nat
  medium_severity : Nat
  low_severity : Nat
  llm_used : Bool
  model_name : Option String

/-- Complete review output, mirroring ReviewOutput in app/models.py.  The
metadata dict {"prompt_version": ..., "llm_provider": ...} is modelled as an
association list whose values are optional strings (None becomes none). -/
structure ReviewOutput where
  pr_number : Int
  issues : List Issue
  summary : ReviewSummary
  metadata : List (String × Option String)

/-! ## Character-level primitives

Python string scanning is modelled over List Char.  The relevant regular
expressions use only ASCII character classes, so the Python classes \s and \w
are embedded as the corresponding ASCII predicates. -/

/-- Python regex class \s over ASCII: space, tab, newline, carriage return,
vertical tab, form feed. -/
def isPySpace (c : Char) : Bool :=
  c = ' ' || c = '\t' || c = '\n' || c = '\r' || c = '\x0b' || c = '\x0c'

/-- Python regex class \w over ASCII: letters, digits, underscore. -/
def isPyWord (c : Char) : Bool :=
  c.isAlpha || c.isDigit || c = '_'

/-- Quote class ["\'] used by the hardcoded-secret patterns in app/rules.py. -/
def isQuote (c : Char) : Bool :=
  c = '"' || c = '\''

/-- Case-insensitive literal match of a pattern against a string prefix,
returning the remainder on success (re.IGNORECASE literal atoms). -/
def ciPre : List Char → List Char → Option (List Char)
  | [], cs => some cs
  | _ :: _, [] => none
  | p :: ps, c :: cs => if p.toLower = c.toLower then ciPre ps cs else none

/-- Case-sensitive literal match of a pattern against a string prefix,
returning the remainder on success. -/
def csPre : List Char → List Char → Option (List Char)
  | [], cs => some cs
  | _ :: _, [] => none
  | p :: ps, c :: cs => if p = c then csPre ps cs else none

/-- Regex atom \s+: at least one ASCII whitespace character, consumed
greedily (equivalent to the backtracking semantics for all patterns below,
whose following atom never matches whitespace). -/
def spacePlus : List Char → Option (List Char)
  | [] => none
  | c :: cs => if isPySpace c then some (cs.dropWhile isPySpace) else none

/-- Regex atom \S+: at least one non-whitespace character, consumed greedily. -/
def nonSpacePlus : List Char → Option (List Char)
  | [] => none
  | c :: cs => if isPySpace c then none else some (cs.dropWhile (fun d => !isPySpace d))

/-- Regex suffix ["\'][^"\']+["\']: a quote, at least one non-quote
character, then a quote (greedy, equivalent to backtracking here since the
inner class excludes the closing class). -/
def quotedLiteral : List Char → Bool
  | [] => false
  | q :: rest =>
    isQuote q &&
      (match rest with
       | [] => false
       | c :: _ => !isQuote c && !(rest.dropWhile (fun d => !isQuote d)).isEmpty)

/-- Regex suffix \s*=\s* followed by a quoted literal, shared by the
hardcoded password / api key / secret patterns of app/rules.py. -/
def eqQuotedAfter (rest : List Char) : Bool :=
  match rest.dropWhile isPySpace with
  | '=' :: rest2 => quotedLiteral (rest2.dropWhile isPySpace)
  | _ => false

/-! ## The eight regular expressions of app/rules.py, matching at a position -/

/-- Pattern \beval\s*\( of check_security_patterns, tested at one position
(the word boundary is checked by the searcher). -/
def evalAt (cs : List Char) : Bool :=
  match ciPre "eval".data cs with
  | some rest =>
    match rest.dropWhile isPySpace with
    | '(' :: _ => true
    | _ => false
  | none => false

/-- Pattern \bexec\s*\( of check_security_patterns, tested at one position. -/
def execAt (cs : List Char) : Bool :=
  match ciPre "exec".data cs with
  | some rest =>
    match rest.dropWhile isPySpace with
    | '(' :: _ => true
    | _ => false
  | none => false

/-- Pattern \bpickle\.loads?\( of check_security_patterns, tested at one
position (case-insensitive, so the optional s also matches S). -/
def pickleAt (cs : List Char) : Bool :=
  match ciPre "pickle.load".data cs with
  | some rest =>
    match rest with
    | [] => false
    | c :: r =>
      if c.toLower = 's' then
        match r with
        | '(' :: _ => true
        | _ => false
      else c = '('
  | none => false

/-- Pattern password\s*=\s*["\'][^"\']+["\'] (and the analogous secret
pattern), tested at one position. -/
def assignQuotedAt (kw : String) (cs : List Char) : Bool :=
  match ciPre kw.data cs with
  | some rest => eqQuotedAfter rest
  | none => false

/-- Pattern api[_-]?key\s*=\s*["\'][^"\']+["\'] of check_security_patterns,
tested at one position. -/
def apiKeyAt (cs : List Char) : Bool :=
  match ciPre "api".data cs with
  | some rest =>
    match rest with
    | [] => false
    | c :: r =>
      if c = '_' || c = '-' then
        match ciPre "key".data r with
        | some r2 => eqQuotedAfter r2
        | none => false
      else
        match ciPre "key".data rest with
        | some r2 => eqQuotedAfter r2
        | none => false
  | none => false

/-- Pattern from\s+\S+\s+import\s+\* of check_import_quality (case
sensitive), tested at one position. -/
def starImportAt (cs : List Char) : Bool :=
  match csPre "from".data cs with
  | some r1 =>
    match spacePlus r1 with
    | some r2 =>
      match nonSpacePlus r2 with
      | some r3 =>
        match spacePlus r3 with
        | some r4 =>
          match csPre "import".data r4 with
          | some r5 =>
            match spacePlus r5 with
            | some r6 =>
              match r6 with
              | '*' :: _ => true
              | _ => false
            | none => false
          | none => false
        | none => false
      | none => false
    | none => false
  | none => false

/-- Pattern ^\+\s*def\s+\w+\s*\( of check_code_complexity, anchored at the
start of a line (Python re.match, case sensitive). -/
def funcDefMatch (l : List Char) : Bool :=
  match l with
  | '+' :: r1 =>
    (match csPre "def".data (r1.dropWhile isPySpace) with
     | some r2 =>
       match r2 with
       | c :: r3 =>
         isPySpace c &&
           (match r3.dropWhile isPySpace with
            | d :: r5 =>
              isPyWord d &&
                (match (r5.dropWhile isPyWord).dropWhile isPySpace with
                 | '(' :: _ => true
                 | _ => false)
            | [] => false)
       | [] => false
     | none => false)
  | _ => false

/-- Word-boundary test for \b at the start of a pattern beginning with a
word character: the preceding character (if any) must not be a word
character. -/
def boundaryOk : Option Char → Bool
  | none => true
  | some c => !isPyWord c

/-- Python re.search: try the position matcher at every position of the
string (tracking the previous character for the word-boundary test, applied
when needB is true). -/
def searchAux (p : List Char → Bool) (needB : Bool) : Option Char → List Char → Bool
  | prev, [] => (!needB || boundaryOk prev) && p []
  | prev, c :: rest =>
    ((!needB || boundaryOk prev) && p (c :: rest)) || searchAux p needB (some c) rest

/-- Python re.search over a string, for a pattern without a leading \b. -/
def pySearch (p : List Char → Bool) (s : String) : Bool :=
  searchAux p false none s.data

/-- Python re.search over a string, for a pattern with a leading \b. -/
def pySearchB (p : List Char → Bool) (s : String) : Bool :=
  searchAux p true none s.data

/-- True when re.search(r"\beval\s*\(", diff, re.IGNORECASE) matches. -/
def searchEval (s : String) : Bool := pySearchB evalAt s

/-- True when re.search(r"\bexec\s*\(", diff, re.IGNORECASE) matches. -/
def searchExec (s : String) : Bool := pySearchB execAt s

/-- True when re.search(r"\bpickle\.loads?\(", diff, re.IGNORECASE) matches. -/
def searchPickle (s : String) : Bool := pySearchB pickleAt s

/-- True when the hardcoded-password pattern matches somewhere in the diff. -/
def searchPassword (s : String) : Bool := pySearch (assignQuotedAt "password") s

/-- True when the hardcoded-api-key pattern matches somewhere in the diff. -/
def searchApiKey (s : String) : Bool := pySearch apiKeyAt s

/-- True when the hardcoded-secret pattern matches somewhere in the diff. -/
def searchSecret (s : String) : Bool := pySearch (assignQuotedAt "secret") s

/-- True when the star-import pattern of check_import_quality matches. -/
def searchStarImport (s : String) : Bool := pySearch starImportAt s

/-! ## Line splitting (Python str.split newline semantics) -/

/-- Python str.split on a single separator character: "".split(c) is [""],
and every separator produces a boundary. -/
def pySplit (sep : Char) : List Char → List (List Char)
  | [] => [[]]
  | c :: cs =>
    if c = sep then [] :: pySplit sep cs
    else
      match pySplit sep cs with
      | [] => [[c]]
      | l :: ls => (c :: l) :: ls

/-- The lines of a diff, as in diff.split('\n') of app/rules.py. -/
def pyLines (s : String) : List (List Char) := pySplit '\n' s.data

/-- Python str.startswith with a literal, over the List Char model. -/
def startsLit (p : String) (l : List Char) : Bool := p.data.isPrefixOf l

/-- Python substring containment (the in operator on str), used to state
that a concrete diff really contains a given fragment. -/
def hasSub (needle : List Char) : List Char → Bool
  | [] => needle.isEmpty
  | c :: cs => needle.isPrefixOf (c :: cs) || hasSub needle cs

/-! ## The rule engine (app/rules.py) -/

/-- The number of changed lines counted by check_pr_size: lines beginning
with + or - excluding the +++ and --- file-header lines. -/
def countChangedLines (diff : String) : Nat :=
  ((pyLines diff).filter
    (fun l => (startsLit "+" l || startsLit "-" l) &&
              !(startsLit "+++" l || startsLit "---" l))).length

/-- Detector check_pr_size of app/rules.py: flag large PRs.  The Python
default threshold is 500 (see check_pr_size_default). -/
def check_pr_size (diff : String) (threshold : Nat) : Option Issue :=
  let lines_changed := countChangedLines diff
  if lines_changed > threshold then
    some { type := "pr_size"
           severity := Severity.medium
           message := "PR has " ++ toString lines_changed ++
             " lines changed. Consider splitting for easier review."
           confidence := 1
           action := ReviewAction.review
           line_number := none
           file_path := none }
  else none

/-- check_pr_size at its Python default threshold of 500, as invoked by
run_all_rules. -/
def check_pr_size_default (diff : String) : Option Issue :=
  check_pr_size diff 500

/-- One entry of the dangerous_patterns dict of check_security_patterns:
a compiled search over the whole diff, the message, and the severity. -/
structure SecPattern where
  search : String → Bool
  message : String
  severity : Severity

/-- The eval entry of the dangerous_patterns dict. -/
def evalPat : SecPattern :=
  { search := searchEval, message := "Use of eval() detected",
    severity := Severity.high }

/-- The exec entry of the dangerous_patterns dict. -/
def execPat : SecPattern :=
  { search := searchExec, message := "Use of exec() detected",
    severity := Severity.high }

/-- The pickle entry of the dangerous_patterns dict (the only medium one). -/
def picklePat : SecPattern :=
  { search := searchPickle,
    message := "Use of pickle detected - consider safer alternatives",
    severity := Severity.medium }

/-- The hardcoded-password entry of the dangerous_patterns dict. -/
def passwordPat : SecPattern :=
  { search := searchPassword, message := "Possible hardcoded password",
    severity := Severity.high }

/-- The hardcoded-api-key entry of the dangerous_patterns dict. -/
def apiKeyPat : SecPattern :=
  { search := searchApiKey, message := "Possible hardcoded API key",
    severity := Severity.high }

/-- The hardcoded-secret entry of the dangerous_patterns dict. -/
def secretPat : SecPattern :=
  { search := searchSecret, message := "Possible hardcoded secret",
    severity := Severity.high }

/-- The dangerous_patterns dict of check_security_patterns, in its Python
insertion order. -/
def dangerous_patterns : List SecPattern :=
  [evalPat, execPat, picklePat, passwordPat, apiKeyPat, secretPat]

/-- The Issue appended by check_security_patterns when a pattern fires. -/
def secIssue (p : SecPattern) : Issue :=
  { type := "security"
    severity := p.severity
    message := p.message
    confidence := 1
    action := ReviewAction.review
    line_number := none
    file_path := none }

/-- Detector check_security_patterns of app/rules.py: one issue per pattern
of dangerous_patterns that matches anywhere in the diff, in dict order. -/
def check_security_patterns (diff : String) : List Issue :=
  dangerous_patterns.filterMap
    (fun p => if p.search diff then some (secIssue p) else none)

/-- The Issue emitted by check_import_quality for a star import. -/
def styleIssue : Issue :=
  { type := "style"
    severity := Severity.low
    message := "Star import (import *) detected. Consider explicit imports."
    confidence := mkRat 9 10
    action := ReviewAction.review
    line_number := none
    file_path := none }

/-- Detector check_import_quality of app/rules.py. -/
def check_import_quality (diff : String) : List Issue :=
  if searchStarImport diff then [styleIssue] else []

/-- The added lines counted by check_code_complexity: lines beginning with
+ excluding the +++ header lines. -/
def addedLines (diff : String) : List (List Char) :=
  (pyLines diff).filter (fun l => startsLit "+" l && !startsLit "+++" l)

/-- The number of added lines that open a function definition, as counted
inside check_code_complexity via re.match on each added line. -/
def functionCount (diff : String) : Nat :=
  ((addedLines diff).filter funcDefMatch).length

/-- The Issue emitted by check_code_complexity. -/
def complexityIssue : Issue :=
  { type := "complexity"
    severity := Severity.medium
    message := "Large function detected (>100 lines). Consider breaking into smaller functions."
    confidence := mkRat 8 10
    action := ReviewAction.review
    line_number := none
    file_path := none }

/-- Detector check_code_complexity of app/rules.py: fires only when more
than 100 added lines contain exactly one function-definition opening. -/
def check_code_complexity (diff : String) : List Issue :=
  if (addedLines diff).length > 100 then
    if functionCount diff = 1 then [complexityIssue] else []
  else []

/-- The rule engine run_all_rules of app/rules.py: the registry order is
check_pr_size, check_security_patterns, check_import_quality,
check_code_complexity; a None result contributes nothing and list results
are concatenated in order. -/
def run_all_rules (diff : String) : List Issue :=
  (check_pr_size_default diff).toList ++
  check_security_patterns diff ++
  check_import_quality diff ++
  check_code_complexity diff

/-! ## The LLM gateway and orchestrator (app/reviewer.py, app/prompts.py) -/

/-- The prompt version constant PROMPT_VERSION of app/prompts.py. -/
def PROMPT_VERSION : String := "v1.0"

/-- The confidence threshold CONFIDENCE_THRESHOLD of app/reviewer.py. -/
def CONFIDENCE_THRESHOLD : Rat := mkRat 7 10

/-- The three failure kinds of the LLM gateway: LLMTimeoutError,
LLMInvalidOutputError, and the remaining ReviewerError cases (provider,
transport and credential failures). -/
inductive LLMError where
  | timeout
  | invalidOutput
  | providerError
deriving DecidableEq

/-- A JSON value, the result of Python json.loads in _parse_llm_output.
Numbers are modelled as exact rationals. -/
inductive Json where
  | null
  | bool (b : Bool)
  | num (q : Rat)
  | str (s : String)
  | arr (items : List Json)
  | obj (fields : List (String × Json))

/-- Python str.strip() over the character-list model (ASCII whitespace on
both ends). -/
def pyStripChars (cs : List Char) : List Char :=
  ((cs.dropWhile isPySpace).reverse.dropWhile isPySpace).reverse

/-- Python split on the three-character fence marker of markdown code
blocks, left to right and non-overlapping, as used by
content.split(three backticks) in _parse_llm_output. -/
def splitFence : List Char → List (List Char)
  | '\x60' :: '\x60' :: '\x60' :: rest => [] :: splitFence rest
  | c :: rest =>
    match splitFence rest with
    | [] => [[c]]
    | l :: ls => (c :: l) :: ls
  | [] => [[]]

/-- The markdown-fence stripping done at the top of _parse_llm_output:
strip whitespace; when the text starts with a fence take the segment
between the first two fence markers, and drop a leading json language
tag (four characters). -/
def stripFences (content : String) : String :=
  let c := pyStripChars content.data
  if startsLit "```" c then
    let body := ((splitFence c).drop 1).headD []
    if startsLit "json" body then String.mk (body.drop 4) else String.mk body
  else String.mk c

/-- The first field of a JSON object with the given key, mirroring Python
dict lookup (json.loads keeps the last duplicate key, but objects produced
by json.loads never carry duplicates, so first-match lookup is faithful). -/
def lookupField (fields : List (String × Json)) (k : String) : Option Json :=
  (fields.find? (fun p => p.1 = k)).map (fun p => p.2)

/-- Pydantic validation of the severity literal. -/
def parseSeverity : Json → Option Severity
  | Json.str "low" => some Severity.low
  | Json.str "medium" => some Severity.medium
  | Json.str "high" => some Severity.high
  | _ => none

/-- Pydantic validation of the action literal. -/
def parseReviewAction : Json → Option ReviewAction
  | Json.str "review" => some ReviewAction.review
  | Json.str "ignore" => some ReviewAction.ignore
  | _ => none

/-- Pydantic validation of the optional int field line_number: absent or
null becomes none, an integral number is accepted, anything else fails. -/
def parseOptInt : Option Json → Option (Option Int)
  | none => some none
  | some Json.null => some none
  | some (Json.num q) => if q.den = 1 then some (some q.num) else none
  | some _ => none

/-- Pydantic validation of the optional string field file_path. -/
def parseOptStr : Option Json → Option (Option String)
  | none => some none
  | some Json.null => some none
  | some (Json.str s) => some (some s)
  | some _ => none

/-- Pydantic validation Issue(**item) of one array element in
_parse_llm_output: all required fields present with the right types,
severity and action in their literal enums, confidence within [0,1]
(Field ge=0.0 le=1.0); extra fields are ignored, any violation makes the
whole element invalid. -/
def validateIssue : Json → Option Issue
  | Json.obj fields =>
    match lookupField fields "type", lookupField fields "severity",
          lookupField fields "message", lookupField fields "confidence",
          lookupField fields "action" with
    | some (Json.str t), some sevJ, some (Json.str msg),
      some (Json.num conf), some actJ =>
      (match parseSeverity sevJ, parseReviewAction actJ,
             parseOptInt (lookupField fields "line_number"),
             parseOptStr (lookupField fields "file_path") with
       | some sev, some act, some ln, some fp =>
         if 0 ≤ conf ∧ conf ≤ 1 then
           some { type := t, severity := sev, message := msg,
                  confidence := conf, action := act,
                  line_number := ln, file_path := fp }
         else none
       | _, _, _, _ => none)
    | _, _, _, _, _ => none
  | _ => none

/-- The validation loop of _parse_llm_output: each element is validated
independently (invalid elements are skipped, never aborting the parse) and
surviving issues below CONFIDENCE_THRESHOLD are dropped. -/
def parseItemsLoop : List Json → List Issue
  | [] => []
  | item :: rest =>
    match validateIssue item with
    | some issue =>
      if CONFIDENCE_THRESHOLD ≤ issue.confidence then issue :: parseItemsLoop rest
      else parseItemsLoop rest
    | none => parseItemsLoop rest

/-- The function _parse_llm_output of app/reviewer.py.  Python json.loads
is an external collaborator, passed in as the decode argument (none models
json.JSONDecodeError).  A decode failure or a non-array top-level value
raises LLMInvalidOutputError; element validation never does. -/
def parse_llm_output (decode : String → Option Json) (content : String) :
    Except LLMError (List Issue) :=
  match decode (stripFences content) with
  | none => Except.error LLMError.invalidOutput
  | some j =>
    match j with
    | Json.arr items => Except.ok (parseItemsLoop items)
    | _ => Except.error LLMError.invalidOutput

/-- The severity tally loop of review_pr: a fold over all issues
incrementing the (low, medium, high) counters. -/
def tallySeverities (issues : List Issue) : Nat × Nat × Nat :=
  issues.foldl
    (fun acc i =>
      match i.severity with
      | Severity.low => (acc.1 + 1, acc.2.1, acc.2.2)
      | Severity.medium => (acc.1, acc.2.1 + 1, acc.2.2)
      | Severity.high => (acc.1, acc.2.1, acc.2.2 + 1))
    (0, 0, 0)

/-- The orchestrator review_pr of app/reviewer.py.  The outcome of the
call_llm gateway (an external interaction) is passed in as llmResult; when
use_llm is false the gateway is never consulted.  Every gateway failure is
absorbed: the review continues with no LLM issues and llm_used = false.
The review_time_seconds field (wall-clock) is not modelled. -/
def review_pr (pr_diff : PRDiff) (use_llm : Bool)
    (llm_provider : String) (llm_model : String)
    (llmResult : Except LLMError (List Issue)) : ReviewOutput :=
  let rule_issues := run_all_rules pr_diff.diff
  let step2 : List Issue × Bool × Option String :=
    if use_llm then
      match llmResult with
      | Except.ok issues => (issues, true, some llm_model)
      | Except.error _ => ([], false, none)
    else ([], false, none)
  let llm_issues := step2.1
  let llm_used := step2.2.1
  let model_name := step2.2.2
  let all_issues := rule_issues ++ llm_issues
  let counts := tallySeverities all_issues
  { pr_number := pr_diff.pr_number
    issues := all_issues
    summary :=
      { total_issues := all_issues.length
        high_severity := counts.2.2
        medium_severity := counts.2.1
        low_severity := counts.1
        llm_used := llm_used
        model_name := model_name }
    metadata :=
      [("prompt_version", some PROMPT_VERSION),
       ("llm_provider", if llm_used then some llm_provider else none)] }

/-! ## Concrete inputs used by the witnesses and counterexamples -/

/-- The number of issues with a given severity in a list (the value the
severity_counts dict of review_pr holds for that key at the end). -/
def countSev (s : Severity) (issues : List Issue) : Nat :=
  issues.countP (fun i => decide (i.severity = s))

/-- The LLM issues actually merged by review_pr: none when use_llm is
false or the gateway failed, the issues of the gateway otherwise. -/
def llmIssuesOf (use_llm : Bool) (llmResult : Except LLMError (List Issue)) :
    List Issue :=
  if use_llm then
    match llmResult with
    | Except.ok issues => issues
    | Except.error _ => []
  else []

/-- Whether review_pr reports the LLM as used: only when it was requested
and the gateway call succeeded. -/
def llmUsedOf (use_llm : Bool) (llmResult : Except LLMError (List Issue)) : Bool :=
  if use_llm then
    match llmResult with
    | Except.ok _ => true
    | Except.error _ => false
  else false

/-- The model name recorded by review_pr: only on a successful LLM call. -/
def modelNameOf (use_llm : Bool) (llm_model : String)
    (llmResult : Except LLMError (List Issue)) : Option String :=
  if use_llm then
    match llmResult with
    | Except.ok _ => some llm_model
    | Except.error _ => none
  else none

/-- The security issue for the eval pattern. -/
def evalIssue : Issue :=
  { type := "security", severity := Severity.high,
    message := "Use of eval() detected", confidence := 1,
    action := ReviewAction.review, line_number := none, file_path := none }

/-- The security issue for the exec pattern. -/
def execIssue : Issue :=
  { type := "security", severity := Severity.high,
    message := "Use of exec() detected", confidence := 1,
    action := ReviewAction.review, line_number := none, file_path := none }

/-- The security issue for the pickle pattern (the only medium one). -/
def pickleIssue : Issue :=
  { type := "security", severity := Severity.medium,
    message := "Use of pickle detected - consider safer alternatives",
    confidence := 1, action := ReviewAction.review,
    line_number := none, file_path := none }

/-- The security issue for the hardcoded-password pattern. -/
def passwordIssue : Issue :=
  { type := "security", severity := Severity.high,
    message := "Possible hardcoded password", confidence := 1,
    action := ReviewAction.review, line_number := none, file_path := none }

/-- The security issue for the hardcoded-api-key pattern. -/
def apiKeyIssue : Issue :=
  { type := "security", severity := Severity.high,
    message := "Possible hardcoded API key", confidence := 1,
    action := ReviewAction.review, line_number := none, file_path := none }

/-- The security issue for the hardcoded-secret pattern. -/
def secretIssue : Issue :=
  { type := "security", severity := Severity.high,
    message := "Possible hardcoded secret", confidence := 1,
    action := ReviewAction.review, line_number := none, file_path := none }

/-- The end-to-end diff of the spec: a hardcoded SECRET_KEY assignment, an
eval( call, an insecure hash usage (hashlib.md5) and a wildcard import. -/
def e2eDiff : String :=
  "+SECRET_KEY = \"abc123\"\n+result = eval(user_input)\n+digest = hashlib.md5(data).hexdigest()\n+from utils import *"

/-- A review request carrying the end-to-end diff. -/
def e2ePR : PRDiff :=
  { pr_number := 101, title := "Add demo feature", description := "demo",
    author := "dev", files_changed := ["app.py"], diff := e2eDiff,
    commit_message := "add feature" }

/-- A gateway outcome for closed statements in which the LLM is disabled
and therefore never consulted. -/
def unusedGateway : Except LLMError (List Issue) :=
  Except.error LLMError.providerError

/-- The characters of a diff made of n lines "+x" joined by newlines,
built recursively so that facts about large instances can be proved by
induction rather than kernel evaluation. -/
def plusChars : Nat → List Char
  | 0 => []
  | 1 => ['+', 'x']
  | n + 2 => '+' :: 'x' :: '\n' :: plusChars (n + 1)

/-- A diff with exactly 500 changed lines (the default size threshold). -/
def diff500 : String := String.mk (plusChars 500)

/-- A diff with exactly 501 changed lines. -/
def diff501 : String := String.mk (plusChars 501)

/-- A diff with 101 added lines of which exactly one opens a function
definition. -/
def diff101 : String :=
  String.intercalate "\n" ("+def big_function(data):" :: List.replicate 100 "+    pass")

/-- A diff with 102 added lines of which two open function definitions
(the documented under-detection edge case of check_code_complexity). -/
def diff102 : String :=
  String.intercalate "\n"
    ("+def big_function(data):" :: "+def helper(x):" :: List.replicate 100 "+    pass")

/-- A JSON element that passes Issue validation with confidence 0.9. -/
def goodItem : Json :=
  Json.obj [("type", Json.str "security"), ("severity", Json.str "high"),
            ("message", Json.str "High confidence"),
            ("confidence", Json.num (mkRat 9 10)),
            ("action", Json.str "review")]

/-- A JSON element that passes Issue validation but has confidence 0.5,
below the threshold. -/
def lowItem : Json :=
  Json.obj [("type", Json.str "style"), ("severity", Json.str "low"),
            ("message", Json.str "Low confidence"),
            ("confidence", Json.num (mkRat 1 2)),
            ("action", Json.str "review")]

/-- A JSON element that fails Issue validation (missing required fields). -/
def badItem : Json :=
  Json.obj [("type", Json.str "invalid"), ("missing_fields", Json.bool true)]

/-- The Issue goodItem validates to. -/
def goodIssue : Issue :=
  { type := "security", severity := Severity.high,
    message := "High confidence", confidence := mkRat 9 10,
    action := ReviewAction.review, line_number := none, file_path := none }

/-! ## Behavioral checks of the embedded patterns against the Python semantics -/

example : searchEval "+result = eval(user_input)" = true := by decide
example : searchEval "approval(x)" = false := by decide
example : searchEval "EVAL (x)" = true := by decide
example : searchSecret "+SECRET_KEY = \"abc\"" = false := by decide
example : searchSecret "+secret = \"abc\"" = true := by decide
example : searchPassword "+password = \"supersecret123\"" = true := by decide
example : searchApiKey "+api_key = \"sk-1234\"" = true := by decide
example : searchApiKey "+APIKEY=\"sk\"" = true := by decide
example : searchPickle "pickle.loads(x)" = true := by decide
example : searchPickle "pickle.load(f)" = true := by decide
example : searchStarImport "from module import *" = true := by decide
example : searchStarImport "from module import x" = false := by decide
example : funcDefMatch "+def foo(".data = true := by decide
example : funcDefMatch "+    def foo  (x):".data = true := by decide
example : funcDefMatch "+deffoo(".data = false := by decide
example : countChangedLines "+a\n-b\n+++ c\n--- d\nx" = 2 := by decide
example : run_all_rules "" = [] := by decide
example : stripFences "```json\n[]\n```" = "\n[]\n" := by decide
example : stripFences "  [1]  " = "[1]" := by decide
example : stripFences "```\n[]\n```" = "\n[]\n" := by decide
example : parse_llm_output (fun _ => none) "x" = Except.error LLMError.invalidOutput := rfl
example : parse_llm_output (fun _ => some (Json.obj [])) "x" = Except.error LLMError.invalidOutput := rfl
example : parse_llm_output (fun _ => some (Json.arr [])) "x" = Except.ok [] := rfl

/-! ## Helper lemmas -/

/-- Splitting the n-line witness diff yields n copies of the line +x. -/
theorem pySplit_plusChars (n : Nat) :
    pySplit '\n' (plusChars (n + 1)) = List.replicate (n + 1) ['+', 'x'] := by
  induction n with
  | zero => decide
  | succ m ih =>
    show pySplit '\n' ('+' :: 'x' :: '\n' :: plusChars (m + 1)) = _
    simp [pySplit, ih, List.replicate_succ]

/-- The witness diff of n lines has exactly n changed lines. -/
theorem countChangedLines_plusChars (n : Nat) :
    countChangedLines (String.mk (plusChars (n + 1))) = n + 1 := by
  unfold countChangedLines pyLines
  show (List.filter _ (pySplit '\n' (plusChars (n + 1)))).length = n + 1
  rw [pySplit_plusChars]
  rw [List.filter_eq_self.mpr ?h, List.length_replicate]
  case h =>
    intro a ha
    rw [List.eq_of_mem_replicate ha]
    decide

/-- The severity tally of review_pr computes exactly the per-severity
counts of the merged issue list. -/
theorem tallySeverities_eq (issues : List Issue) :
    tallySeverities issues =
      (countSev Severity.low issues, countSev Severity.medium issues,
       countSev Severity.high issues) := by
  suffices h : ∀ a b c : Nat,
      issues.foldl
        (fun acc i =>
          match i.severity with
          | Severity.low => (acc.1 + 1, acc.2.1, acc.2.2)
          | Severity.medium => (acc.1, acc.2.1 + 1, acc.2.2)
          | Severity.high => (acc.1, acc.2.1, acc.2.2 + 1))
        (a, b, c) =
      (a + countSev Severity.low issues, b + countSev Severity.medium issues,
       c + countSev Severity.high issues) by
    simpa [tallySeverities] using h 0 0 0
  induction issues with
  | nil => intro a b c; simp [countSev]
  | cons i rest ih =>
    intro a b c
    rcases hs : i.severity <;>
      simp [List.foldl_cons, hs, ih, countSev, List.countP_cons, hs] <;> omega

/-- Membership in the security-pattern issues: exactly the issues of the
patterns whose search matches the diff. -/
theorem mem_check_security_patterns {d : String} {i : Issue} :
    i ∈ check_security_patterns d ↔
      ∃ p ∈ dangerous_patterns, p.search d = true ∧ secIssue p = i := by
  simp only [check_security_patterns, List.mem_filterMap]
  constructor
  · rintro ⟨p, hp, hf⟩
    by_cases h : p.search d
    · refine ⟨p, hp, h, ?_⟩
      simp [h] at hf
      exact hf
    · simp [h] at hf
  · rintro ⟨p, hp, h, hf⟩
    exact ⟨p, hp, by simp [h, hf]⟩

/-- Every issue emitted by check_pr_size has the documented shape. -/
theorem check_pr_size_shape {d : String} {th : Nat} {i : Issue}
    (h : check_pr_size d th = some i) :
    i.type = "pr_size" ∧ i.severity = Severity.medium ∧
    i.message = "PR has " ++ toString (countChangedLines d) ++
      " lines changed. Consider splitting for easier review." ∧
    i.confidence = 1 ∧ i.action = ReviewAction.review ∧
    i.line_number = none ∧ i.file_path = none := by
  simp only [check_pr_size] at h
  split at h
  · cases h
    exact ⟨rfl, rfl, rfl, rfl, rfl, rfl, rfl⟩
  · cases h

/-- Every issue of check_import_quality is the style issue. -/
theorem check_import_quality_shape {d : String} {i : Issue}
    (h : i ∈ check_import_quality d) : i = styleIssue := by
  unfold check_import_quality at h
  split at h
  · simpa using h
  · cases h

/-- Every issue of check_code_complexity is the complexity issue. -/
theorem check_code_complexity_shape {d : String} {i : Issue}
    (h : i ∈ check_code_complexity d) : i = complexityIssue := by
  unfold check_code_complexity at h
  split at h
  · split at h
    · simpa using h
    · cases h
  · cases h

/-- Membership in the rule-engine output decomposes by detector. -/
theorem mem_run_all_rules {d : String} {i : Issue} :
    i ∈ run_all_rules d ↔
      check_pr_size_default d = some i ∨
      i ∈ check_security_patterns d ∨
      i ∈ check_import_quality d ∨
      i ∈ check_code_complexity d := by
  simp [run_all_rules, Option.mem_toList]

/-- Unfolding review_pr: the output is fully determined by the rule issues,
the gateway outcome, and the inputs. -/
theorem review_pr_eq (pr : PRDiff) (use_llm : Bool)
    (prov model : String) (res : Except LLMError (List Issue)) :
    review_pr pr use_llm prov model res =
      { pr_number := pr.pr_number
        issues := run_all_rules pr.diff ++ llmIssuesOf use_llm res
        summary :=
          { total_issues := (run_all_rules pr.diff ++ llmIssuesOf use_llm res).length
            high_severity :=
              countSev Severity.high (run_all_rules pr.diff ++ llmIssuesOf use_llm res)
            medium_severity :=
              countSev Severity.medium (run_all_rules pr.diff ++ llmIssuesOf use_llm res)
            low_severity :=
              countSev Severity.low (run_all_rules pr.diff ++ llmIssuesOf use_llm res)
            llm_used := llmUsedOf use_llm res
            model_name := modelNameOf use_llm model res }
        metadata :=
          [("prompt_version", some PROMPT_VERSION),
           ("llm_provider", if llmUsedOf use_llm res then some prov else none)] } := by
  unfold review_pr llmIssuesOf llmUsedOf modelNameOf
  cases use_llm with
  | false => simp [tallySeverities_eq]
  | true => cases res <;> simp [tallySeverities_eq]

/-- A validated issue always satisfies the Pydantic confidence bounds. -/
theorem validateIssue_conf {j : Json} {i : Issue}
    (h : validateIssue j = some i) : 0 ≤ i.confidence ∧ i.confidence ≤ 1 := by
  cases j with
  | obj fields =>
    simp only [validateIssue] at h
    split at h
    · split at h
      · split at h
        · cases h
          assumption
        · cases h
      · cases h
    · cases h
  | null => cases h
  | bool b => cases h
  | num q => cases h
  | str s => cases h
  | arr items => cases h

/-- The element-validation loop is a filterMap: order is preserved, invalid
elements and low-confidence elements are dropped, nothing else changes. -/
theorem parseItemsLoop_eq_filterMap (items : List Json) :
    parseItemsLoop items =
      items.filterMap
        (fun item =>
          (validateIssue item).bind
            (fun i => if CONFIDENCE_THRESHOLD ≤ i.confidence then some i else none)) := by
  induction items with
  | nil => rfl
  | cons item rest ih =>
    simp only [parseItemsLoop, List.filterMap_cons]
    cases hv : validateIssue item with
    | none => simpa [hv] using ih
    | some issue =>
      by_cases hc : CONFIDENCE_THRESHOLD ≤ issue.confidence
      · simpa [hv, hc] using congrArg (issue :: ·) ih
      · simpa [hv, hc] using ih

/-- Every issue surviving the validation loop was validated and met the
confidence threshold. -/
theorem mem_parseItemsLoop {items : List Json} {i : Issue}
    (h : i ∈ parseItemsLoop items) :
    (∃ j ∈ items, validateIssue j = some i) ∧
    CONFIDENCE_THRESHOLD ≤ i.confidence := by
  rw [parseItemsLoop_eq_filterMap] at h
  simp only [List.mem_filterMap, Option.bind_eq_some] at h
  obtain ⟨j, hj, i', hv, hi⟩ := h
  split at hi
  · cases hi
    exact ⟨⟨j, hj, hv⟩, by assumption⟩
  · cases hi

/-! ## Claim theorems -/

/-- C2: for every review request and every LLM gateway failure kind
(Timeout, InvalidOutput, ProviderError), review_pr still returns a
ReviewOutput whose summary has llm_used = false and whose issues are
exactly the rule-engine issues for that diff; no failure propagates
(review_pr is a total function of the gateway outcome). -/
theorem claim_C2 (pr : PRDiff) (prov model : String) (e : LLMError) :
    (review_pr pr true prov model (Except.error e)).summary.llm_used = false ∧
    (review_pr pr true prov model (Except.error e)).issues = run_all_rules pr.diff ∧
    (review_pr pr true prov model (Except.error e)).summary.model_name = none := by
  rw [review_pr_eq]
  simp [llmIssuesOf, llmUsedOf, modelNameOf]

/-- Witness for C2 at a concrete request and each concrete failure kind. -/
theorem claim_C2_witness :
    (review_pr e2ePR true "openai" "gpt-4" (Except.error LLMError.timeout)).summary.llm_used = false ∧
    (review_pr e2ePR true "openai" "gpt-4" (Except.error LLMError.invalidOutput)).issues = run_all_rules e2eDiff ∧
    (review_pr e2ePR true "openai" "gpt-4" (Except.error LLMError.providerError)).summary.llm_used = false :=
  ⟨(claim_C2 e2ePR "openai" "gpt-4" LLMError.timeout).1,
   (claim_C2 e2ePR "openai" "gpt-4" LLMError.invalidOutput).2.1,
   (claim_C2 e2ePR "openai" "gpt-4" LLMError.providerError).1⟩

/-- C7: run_all_rules is a total function on strings (it always returns a
list; the embedding is a total Lean function, so no exception paths
exist), and on the empty diff, as well as on a diff without any line
terminator, it returns no issues. -/
theorem claim_C7 :
    (∀ diff : String, ∃ issues : List Issue, run_all_rules diff = issues) ∧
    run_all_rules "" = [] ∧
    run_all_rules "x = compute(1)" = [] :=
  ⟨fun _ => ⟨_, rfl⟩, by decide, by decide⟩

/-- C10: every issue the rule engine returns, for every diff, carries no
line number and no file path. -/
theorem claim_C10 (d : String) :
    ∀ i ∈ run_all_rules d, i.line_number = none ∧ i.file_path = none := by
  intro i hi
  rcases mem_run_all_rules.mp hi with h | h | h | h
  · rw [check_pr_size_default] at h
    have hs := check_pr_size_shape h
    exact ⟨hs.2.2.2.2.2.1, hs.2.2.2.2.2.2⟩
  · rcases mem_check_security_patterns.mp h with ⟨p, _, _, rfl⟩
    exact ⟨rfl, rfl⟩
  · rw [check_import_quality_shape h]
    exact ⟨rfl, rfl⟩
  · rw [check_code_complexity_shape h]
    exact ⟨rfl, rfl⟩

/-- Witness for C10 at a concrete diff whose rule issues are nonempty. -/
theorem claim_C10_witness :
    evalIssue.line_number = none ∧ evalIssue.file_path = none :=
  claim_C10 "+eval(x)" evalIssue (by decide)

/-- C4: the size check counts diff lines beginning with + or - excluding
the +++ and --- header lines; at exactly the default threshold of 500
changed lines no pr_size issue fires, while at 501 exactly one issue
fires, with kind pr_size, severity medium, confidence 1.0, and a message
containing the literal count 501. -/
theorem claim_C4 (diff : String) :
    (countChangedLines diff = 500 → check_pr_size diff 500 = none) ∧
    (countChangedLines diff = 501 →
      ∃ i, check_pr_size diff 500 = some i ∧
        i.type = "pr_size" ∧ i.severity = Severity.medium ∧
        i.confidence = 1 ∧
        ∃ pre post : List Char, pre ++ "501".data ++ post = i.message.data) := by
  constructor
  · intro h
    simp [check_pr_size, h]
  · intro h
    have he : check_pr_size diff 500 = some
        { type := "pr_size", severity := Severity.medium,
          message := "PR has " ++ toString (501 : Nat) ++
            " lines changed. Consider splitting for easier review.",
          confidence := 1, action := ReviewAction.review,
          line_number := none, file_path := none } := by
      simp [check_pr_size, h]
    exact ⟨_, he, rfl, rfl, rfl, "PR has ".data,
      " lines changed. Consider splitting for easier review.".data, by decide⟩

/-- Witness for C4: concrete diffs with exactly 500 and 501 changed lines. -/
theorem claim_C4_witness :
    check_pr_size diff500 500 = none ∧
    ∃ i, check_pr_size diff501 500 = some i ∧
      i.type = "pr_size" ∧ i.severity = Severity.medium ∧
      i.confidence = 1 ∧
      ∃ pre post : List Char, pre ++ "501".data ++ post = i.message.data :=
  ⟨(claim_C4 diff500).1 (countChangedLines_plusChars 499),
   (claim_C4 diff501).2 (countChangedLines_plusChars 500)⟩

/-- C6: the complexity check fires exactly one complexity issue (severity
medium, confidence 0.8) when more than 100 added lines contain exactly one
function-definition opening, and fires nothing when the added-line count
or the single-function condition fails (in particular for more than one,
or zero, function definitions). -/
theorem claim_C6 (diff : String) :
    (100 < (addedLines diff).length ∧ functionCount diff = 1 →
      check_code_complexity diff = [complexityIssue]) ∧
    (¬(100 < (addedLines diff).length ∧ functionCount diff = 1) →
      check_code_complexity diff = []) ∧
    complexityIssue.type = "complexity" ∧
    complexityIssue.severity = Severity.medium ∧
    complexityIssue.confidence = mkRat 8 10 := by
  refine ⟨?_, ?_, rfl, rfl, rfl⟩
  · rintro ⟨h1, h2⟩
    simp [check_code_complexity, h1, h2]
  · intro h
    unfold check_code_complexity
    split
    · split
      · exact absurd ⟨by omega, by assumption⟩ h
      · rfl
    · rfl

/-- Witness for C6: a 101-added-line diff with one function definition
fires; a 102-added-line diff with two function definitions does not. -/
theorem claim_C6_witness :
    check_code_complexity diff101 = [complexityIssue] ∧
    check_code_complexity diff102 = [] :=
  ⟨(claim_C6 diff101).1 ⟨by decide, by decide⟩,
   (claim_C6 diff102).2.1 (by decide)⟩

/-- The security-pattern detector never emits a duplicate issue: every
pattern contributes at most once, whatever the diff. -/
theorem check_security_patterns_nodup (d : String) :
    (check_security_patterns d).Nodup := by
  unfold check_security_patterns dangerous_patterns
  cases h1 : searchEval d <;> cases h2 : searchExec d <;>
    cases h3 : searchPickle d <;> cases h4 : searchPassword d <;>
    cases h5 : searchApiKey d <;> cases h6 : searchSecret d <;>
    simp [evalPat, execPat, picklePat, passwordPat, apiKeyPat, secretPat,
      secIssue, h1, h2, h3, h4, h5, h6]

/-- C5: each security pattern contributes at most one issue regardless of
how many times it matches (the emitted list never holds duplicates);
each of the six patterns fires exactly when its regex matches the diff,
independently of the others; and every emitted issue has kind security,
confidence 1.0, action review, and severity high except the pickle
(unsafe-deserialization) issue, which is medium. -/
theorem claim_C5 (d : String) :
    (check_security_patterns d).Nodup ∧
    ((evalIssue ∈ check_security_patterns d) ↔ searchEval d = true) ∧
    ((execIssue ∈ check_security_patterns d) ↔ searchExec d = true) ∧
    ((pickleIssue ∈ check_security_patterns d) ↔ searchPickle d = true) ∧
    ((passwordIssue ∈ check_security_patterns d) ↔ searchPassword d = true) ∧
    ((apiKeyIssue ∈ check_security_patterns d) ↔ searchApiKey d = true) ∧
    ((secretIssue ∈ check_security_patterns d) ↔ searchSecret d = true) ∧
    (∀ i ∈ check_security_patterns d,
      i.type = "security" ∧ i.confidence = 1 ∧ i.action = ReviewAction.review ∧
      (i = pickleIssue → i.severity = Severity.medium) ∧
      (i ≠ pickleIssue → i.severity = Severity.high)) := by
  refine ⟨check_security_patterns_nodup d, ?_, ?_, ?_, ?_, ?_, ?_, ?_⟩
  · constructor
    · intro h
      rcases mem_check_security_patterns.mp h with ⟨p, hp, hs, he⟩
      simp only [dangerous_patterns, List.mem_cons, List.not_mem_nil, or_false] at hp
      rcases hp with rfl | rfl | rfl | rfl | rfl | rfl
      · exact hs
      all_goals exact absurd he (by decide)
    · intro h
      exact mem_check_security_patterns.mpr ⟨evalPat, by simp [dangerous_patterns], h, by decide⟩
  · constructor
    · intro h
      rcases mem_check_security_patterns.mp h with ⟨p, hp, hs, he⟩
      simp only [dangerous_patterns, List.mem_cons, List.not_mem_nil, or_false] at hp
      rcases hp with rfl | rfl | rfl | rfl | rfl | rfl
      · exact absurd he (by decide)
      · exact hs
      all_goals exact absurd he (by decide)
    · intro h
      exact mem_check_security_patterns.mpr ⟨execPat, by simp [dangerous_patterns], h, by decide⟩
  · constructor
    · intro h
      rcases mem_check_security_patterns.mp h with ⟨p, hp, hs, he⟩
      simp only [dangerous_patterns, List.mem_cons, List.not_mem_nil, or_false] at hp
      rcases hp with rfl | rfl | rfl | rfl | rfl | rfl
      · exact absurd he (by decide)
      · exact absurd he (by decide)
      · exact hs
      all_goals exact absurd he (by decide)
    · intro h
      exact mem_check_security_patterns.mpr ⟨picklePat, by simp [dangerous_patterns], h, by decide⟩
  · constructor
    · intro h
      rcases mem_check_security_patterns.mp h with ⟨p, hp, hs, he⟩
      simp only [dangerous_patterns, List.mem_cons, List.not_mem_nil, or_false] at hp
      rcases hp with rfl | rfl | rfl | rfl | rfl | rfl
      · exact absurd he (by decide)
      · exact absurd he (by decide)
      · exact absurd he (by decide)
      · exact hs
      all_goals exact absurd he (by decide)
    · intro h
      exact mem_check_security_patterns.mpr ⟨passwordPat, by simp [dangerous_patterns], h, by decide⟩
  · constructor
    · intro h
      rcases mem_check_security_patterns.mp h with ⟨p, hp, hs, he⟩
      simp only [dangerous_patterns, List.mem_cons, List.not_mem_nil, or_false] at hp
      rcases hp with rfl | rfl | rfl | rfl | rfl | rfl
      · exact absurd he (by decide)
      · exact absurd he (by decide)
      · exact absurd he (by decide)
      · exact absurd he (by decide)
      · exact hs
      · exact absurd he (by decide)
    · intro h
      exact mem_check_security_patterns.mpr ⟨apiKeyPat, by simp [dangerous_patterns], h, by decide⟩
  · constructor
    · intro h
      rcases mem_check_security_patterns.mp h with ⟨p, hp, hs, he⟩
      simp only [dangerous_patterns, List.mem_cons, List.not_mem_nil, or_false] at hp
      rcases hp with rfl | rfl | rfl | rfl | rfl | rfl
      · exact absurd he (by decide)
      · exact absurd he (by decide)
      · exact absurd he (by decide)
      · exact absurd he (by decide)
      · exact absurd he (by decide)
      · exact hs
    · intro h
      exact mem_check_security_patterns.mpr ⟨secretPat, by simp [dangerous_patterns], h, by decide⟩
  · intro i hi
    rcases mem_check_security_patterns.mp hi with ⟨p, hp, hs, rfl⟩
    simp only [dangerous_patterns, List.mem_cons, List.not_mem_nil, or_false] at hp
    rcases hp with rfl | rfl | rfl | rfl | rfl | rfl <;>
      exact ⟨by decide, by decide, by decide, by decide, by decide⟩

/-- Witness for C5 at a diff firing the eval and pickle patterns. -/
theorem claim_C5_witness :
    (check_security_patterns "+eval(x)\n+pickle.loads(y)").Nodup ∧
    evalIssue ∈ check_security_patterns "+eval(x)\n+pickle.loads(y)" ∧
    pickleIssue ∈ check_security_patterns "+eval(x)\n+pickle.loads(y)" ∧
    evalIssue.severity = Severity.high ∧ pickleIssue.severity = Severity.medium :=
  ⟨(claim_C5 _).1,
   (claim_C5 _).2.1.mpr (by decide),
   (claim_C5 _).2.2.2.1.mpr (by decide),
   ((claim_C5 "+eval(x)\n+pickle.loads(y)").2.2.2.2.2.2.2 evalIssue
     ((claim_C5 _).2.1.mpr (by decide))).2.2.2.2 (by decide),
   ((claim_C5 "+eval(x)\n+pickle.loads(y)").2.2.2.2.2.2.2 pickleIssue
     ((claim_C5 _).2.2.2.1.mpr (by decide))).2.2.2.1 rfl⟩

/-- Every rule-engine issue has its confidence within [0,1]. -/
theorem run_all_rules_conf {d : String} {i : Issue}
    (h : i ∈ run_all_rules d) : 0 ≤ i.confidence ∧ i.confidence ≤ 1 := by
  rcases mem_run_all_rules.mp h with h | h | h | h
  · rw [check_pr_size_default] at h
    rw [(check_pr_size_shape h).2.2.2.1]
    exact ⟨by decide, by decide⟩
  · rcases mem_check_security_patterns.mp h with ⟨p, _, _, rfl⟩
    constructor <;> simp [secIssue]
  · rw [check_import_quality_shape h]
    exact ⟨by decide, by decide⟩
  · rw [check_code_complexity_shape h]
    exact ⟨by decide, by decide⟩

/-- Every issue in a successful LLM parse has its confidence within [0,1]
(enforced by the per-element Pydantic validation). -/
theorem parse_llm_output_conf {decode : String → Option Json} {content : String}
    {l : List Issue} (h : parse_llm_output decode content = Except.ok l) :
    ∀ i ∈ l, 0 ≤ i.confidence ∧ i.confidence ≤ 1 := by
  intro i hi
  unfold parse_llm_output at h
  cases hd : decode (stripFences content) with
  | none => rw [hd] at h; cases h
  | some j =>
    rw [hd] at h
    cases j with
    | arr items =>
      simp only [Except.ok.injEq] at h
      rcases mem_parseItemsLoop (h ▸ hi) with ⟨⟨_, _, hv⟩, _⟩
      exact validateIssue_conf hv
    | null => cases h
    | bool b => cases h
    | num q => cases h
    | str s => cases h
    | obj fields => cases h

/-- C1 (counterexample): the end-to-end diff contains a hardcoded
SECRET_KEY assignment, an eval( call, an insecure hash usage (hashlib.md5)
and a wildcard import, yet review_pr with the LLM disabled reports exactly
one high-severity issue (the eval pattern), not at least three: neither a
SECRET_KEY= nor an insecure-hash pattern exists in app/rules.py. -/
theorem claim_C1_counterexample :
    (hasSub "SECRET_KEY = \"abc123\"".data e2eDiff.data &&
     hasSub "eval(".data e2eDiff.data &&
     hasSub "hashlib.md5".data e2eDiff.data &&
     hasSub "from utils import *".data e2eDiff.data) = true ∧
    (review_pr e2ePR false "openai" "gpt-4" unusedGateway).summary.high_severity = 1 ∧
    ¬(3 ≤ (review_pr e2ePR false "openai" "gpt-4" unusedGateway).summary.high_severity ∧
      1 ≤ (review_pr e2ePR false "openai" "gpt-4" unusedGateway).summary.low_severity ∧
      (review_pr e2ePR false "openai" "gpt-4" unusedGateway).summary.llm_used = false) := by
  refine ⟨by decide, by decide, ?_⟩
  rintro ⟨h3, -, -⟩
  have h1 : (review_pr e2ePR false "openai" "gpt-4" unusedGateway).summary.high_severity = 1 := by
    decide
  omega

/-- C1 (amended): for a review request whose diff matches the eval pattern
and the wildcard-import pattern (as the end-to-end diff does), review_pr
with the LLM disabled returns a summary with high_severity at least 1,
low_severity at least 1, and llm_used = false. -/
theorem claim_C1 (pr : PRDiff) (prov model : String)
    (res : Except LLMError (List Issue))
    (hEval : searchEval pr.diff = true)
    (hStar : searchStarImport pr.diff = true) :
    1 ≤ (review_pr pr false prov model res).summary.high_severity ∧
    1 ≤ (review_pr pr false prov model res).summary.low_severity ∧
    (review_pr pr false prov model res).summary.llm_used = false := by
  rw [review_pr_eq]
  dsimp only
  have hev : evalIssue ∈ run_all_rules pr.diff :=
    mem_run_all_rules.mpr (Or.inr (Or.inl (mem_check_security_patterns.mpr
      ⟨evalPat, by simp [dangerous_patterns], hEval, by decide⟩)))
  have hst : styleIssue ∈ run_all_rules pr.diff :=
    mem_run_all_rules.mpr (Or.inr (Or.inr (Or.inl
      (by simp [check_import_quality, hStar]))))
  refine ⟨?_, ?_, by simp [llmUsedOf]⟩
  · have hpos : 0 < countSev Severity.high (run_all_rules pr.diff ++ llmIssuesOf false res) := by
      rw [countSev]
      exact List.countP_pos_iff.mpr ⟨evalIssue, List.mem_append_left _ hev, by decide⟩
    omega
  · have hpos : 0 < countSev Severity.low (run_all_rules pr.diff ++ llmIssuesOf false res) := by
      rw [countSev]
      exact List.countP_pos_iff.mpr ⟨styleIssue, List.mem_append_left _ hst, by decide⟩
    omega

/-- Witness for C1 (amended) at the concrete end-to-end diff. -/
theorem claim_C1_witness :
    1 ≤ (review_pr e2ePR false "openai" "gpt-4" unusedGateway).summary.high_severity ∧
    1 ≤ (review_pr e2ePR false "openai" "gpt-4" unusedGateway).summary.low_severity ∧
    (review_pr e2ePR false "openai" "gpt-4" unusedGateway).summary.llm_used = false :=
  claim_C1 e2ePR "openai" "gpt-4" unusedGateway (by decide) (by decide)

/-- C3: parsing a raw LLM response first strips whitespace and any
markdown fence with optional json language tag (the stripFences step);
the parse fails exactly when the decoded text is not valid JSON or its
top-level value is not an array, and every failure is InvalidOutput;
otherwise each element failing Issue validation or falling strictly below
the 0.7 confidence threshold is dropped individually (never aborting the
parse) and survivors are returned in their original array order, an empty
survivor list being a valid result. -/
theorem claim_C3 (decode : String → Option Json) (content : String) :
    ((∃ e, parse_llm_output decode content = Except.error e) ↔
      ∀ items, decode (stripFences content) ≠ some (Json.arr items)) ∧
    (∀ e, parse_llm_output decode content = Except.error e →
      e = LLMError.invalidOutput) ∧
    (∀ items, decode (stripFences content) = some (Json.arr items) →
      parse_llm_output decode content =
        Except.ok (items.filterMap (fun item =>
          (validateIssue item).bind
            (fun i => if CONFIDENCE_THRESHOLD ≤ i.confidence then some i
                      else none)))) := by
  refine ⟨⟨?_, ?_⟩, ?_, ?_⟩
  · rintro ⟨e, he⟩ items hsome
    rw [parse_llm_output, hsome] at he
    cases he
  · intro hall
    cases hd : decode (stripFences content) with
    | none => exact ⟨LLMError.invalidOutput, by rw [parse_llm_output, hd]⟩
    | some j =>
      cases j with
      | arr items => exact absurd hd (hall items)
      | null => exact ⟨LLMError.invalidOutput, by rw [parse_llm_output, hd]⟩
      | bool b => exact ⟨LLMError.invalidOutput, by rw [parse_llm_output, hd]⟩
      | num q => exact ⟨LLMError.invalidOutput, by rw [parse_llm_output, hd]⟩
      | str s => exact ⟨LLMError.invalidOutput, by rw [parse_llm_output, hd]⟩
      | obj fields => exact ⟨LLMError.invalidOutput, by rw [parse_llm_output, hd]⟩
  · intro e he
    cases hd : decode (stripFences content) with
    | none =>
      rw [parse_llm_output, hd] at he
      cases he
      rfl
    | some j =>
      rw [parse_llm_output, hd] at he
      cases j <;> cases he <;> rfl
  · intro items hd
    rw [parse_llm_output, hd]
    dsimp only
    rw [parseItemsLoop_eq_filterMap]

/-- Witness for C3: a decode yielding one valid high-confidence element,
one below-threshold element and one schema-invalid element produces
exactly the single surviving issue. -/
theorem claim_C3_witness :
    parse_llm_output (fun _ => some (Json.arr [goodItem, lowItem, badItem]))
      "```json\n[...]\n```" = Except.ok [goodIssue] := by
  have h := (claim_C3 (fun _ => some (Json.arr [goodItem, lowItem, badItem]))
    "```json\n[...]\n```").2.2 [goodItem, lowItem, badItem] rfl
  rw [h]
  exact congrArg Except.ok (by decide)

/-- C8: every issue appearing in a review_pr output whose LLM issues come
from the parsing pipeline of the gateway (whether the issue originates from the
rule engine or survives LLM-output validation) has confidence within
[0,1], a severity among low, medium and high, and an action among review
and ignore. -/
theorem claim_C8 (pr : PRDiff) (use_llm : Bool) (prov model : String)
    (decode : String → Option Json) (content : String) :
    ∀ i ∈ (review_pr pr use_llm prov model
        (parse_llm_output decode content)).issues,
      0 ≤ i.confidence ∧ i.confidence ≤ 1 ∧
      (i.severity = Severity.low ∨ i.severity = Severity.medium ∨
        i.severity = Severity.high) ∧
      (i.action = ReviewAction.review ∨ i.action = ReviewAction.ignore) := by
  intro i hi
  have hsev : i.severity = Severity.low ∨ i.severity = Severity.medium ∨
      i.severity = Severity.high := by
    cases i.severity <;> simp
  have hact : i.action = ReviewAction.review ∨ i.action = ReviewAction.ignore := by
    cases i.action <;> simp
  rw [review_pr_eq] at hi
  dsimp only at hi
  rcases List.mem_append.mp hi with h | h
  · have hc := run_all_rules_conf h
    exact ⟨hc.1, hc.2, hsev, hact⟩
  · simp only [llmIssuesOf] at h
    cases use_llm with
    | false => cases h
    | true =>
      cases hp : parse_llm_output decode content with
      | error e =>
        rw [hp] at h
        cases h
      | ok l =>
        rw [hp] at h
        have hc := parse_llm_output_conf hp i h
        exact ⟨hc.1, hc.2, hsev, hact⟩

/-- Witness for C8 at a concrete request with a successful LLM parse. -/
theorem claim_C8_witness :
    0 ≤ goodIssue.confidence ∧ goodIssue.confidence ≤ 1 ∧
    (goodIssue.severity = Severity.low ∨ goodIssue.severity = Severity.medium ∨
      goodIssue.severity = Severity.high) ∧
    (goodIssue.action = ReviewAction.review ∨
      goodIssue.action = ReviewAction.ignore) :=
  claim_C8 e2ePR true "openai" "gpt-4"
    (fun _ => some (Json.arr [goodItem])) "[]" goodIssue (by decide)

/-- C9: the output of review_pr lists rule-engine issues first and LLM
issues second, preserving the internal order of each source; the summary
total equals the length of that list and its per-severity counts tally
that same list; the metadata carries the fixed prompt version and, when
the LLM was used, the provider name. -/
theorem claim_C9 (pr : PRDiff) (use_llm : Bool) (prov model : String)
    (res : Except LLMError (List Issue)) :
    (review_pr pr use_llm prov model res).issues =
      run_all_rules pr.diff ++ llmIssuesOf use_llm res ∧
    (review_pr pr use_llm prov model res).summary.total_issues =
      (review_pr pr use_llm prov model res).issues.length ∧
    (review_pr pr use_llm prov model res).summary.high_severity =
      countSev Severity.high (review_pr pr use_llm prov model res).issues ∧
    (review_pr pr use_llm prov model res).summary.medium_severity =
      countSev Severity.medium (review_pr pr use_llm prov model res).issues ∧
    (review_pr pr use_llm prov model res).summary.low_severity =
      countSev Severity.low (review_pr pr use_llm prov model res).issues ∧
    ("prompt_version", some PROMPT_VERSION) ∈
      (review_pr pr use_llm prov model res).metadata ∧
    ((review_pr pr use_llm prov model res).summary.llm_used = true →
      ("llm_provider", some prov) ∈
        (review_pr pr use_llm prov model res).metadata) := by
  rw [review_pr_eq]
  dsimp only
  refine ⟨rfl, rfl, rfl, rfl, rfl, by simp, ?_⟩
  intro h
  simp [h]

/-- Witness for C9: with a successful gateway outcome the provider name is
recorded in the metadata. -/
theorem claim_C9_witness :
    ("llm_provider", some "openai") ∈
      (review_pr e2ePR true "openai" "gpt-4" (Except.ok [goodIssue])).metadata :=
  (claim_C9 e2ePR true "openai" "gpt-4" (Except.ok [goodIssue])).2.2.2.2.2.2
    (by decide)
